import Mathlib

/-!
Verification of the CS120 Food Truck core logic (`foodtruck.py`, `app.py`).

The Python source is shallowly embedded: each Python function that the
claims touch is translated to an executable Lean definition over explicit
state (lists of records standing for the CSV-backed collections).  Strings
are Lean `String`s; Python's ASCII-range `str.lower`, `str.strip` and
substring containment (`in`) are modelled character-exactly for the ASCII
texts this program manipulates.
-/

set_option maxRecDepth 4000
set_option linter.unusedVariables false

/-- The set of characters Python's `str.strip()` removes (ASCII whitespace:
space, tab, linefeed, vertical tab, formfeed, carriage return). -/
def isPyWSpace (c : Char) : Bool :=
  c.toNat == 32 || c.toNat == 9 || c.toNat == 10 || c.toNat == 11 ||
    c.toNat == 12 || c.toNat == 13

/-- ASCII case folding of one character, as Python's `str.lower` acts on the
ASCII texts used by the program. -/
def lowerChar (c : Char) : Char :=
  if 65 ≤ c.toNat ∧ c.toNat ≤ 90 then Char.ofNat (c.toNat + 32) else c

/-- Model of Python `s.lower()` (ASCII range). -/
def pyLower (s : String) : String :=
  ⟨s.data.map lowerChar⟩

/-- Strip whitespace from both ends of a character list, as Python
`str.strip()` does: leading whitespace is dropped, then trailing whitespace
is dropped (implemented by reversing). -/
def stripChars (l : List Char) : List Char :=
  (((l.dropWhile isPyWSpace).reverse.dropWhile isPyWSpace)).reverse

/-- Model of Python `s.strip()`. -/
def pyStrip (s : String) : String :=
  ⟨stripChars s.data⟩

/-- Bool-valued contiguous-subsequence test on character lists: does
`needle` occur contiguously inside `haystack`?  This is Python's
`needle in haystack` on strings. -/
def containsSeq (needle : List Char) : List Char → Bool
  | [] => needle.isEmpty
  | c :: rest => needle.isPrefixOf (c :: rest) || containsSeq needle rest

/-- Python's substring operator `n in h` on strings. -/
def subStr (n h : String) : Bool :=
  containsSeq n.data h.data

/-- Model of `_sanitize_for_csv` (`foodtruck.py:38`): strip surrounding
whitespace, then replace each newline or carriage return by a space. -/
def sanitize_for_csv (s : String) : String :=
  ⟨(stripChars s.data).map (fun c => if c.toNat = 10 ∨ c.toNat = 13 then ' ' else c)⟩

/-- The slice of a menu-item record that the allergy checker reads: the
item's name and its allergen tag list (`foodtruck.py` stores further
presentation fields — description, price, category, vegan flag, image —
which no claim and no allergy-checking code path inspects). -/
structure MenuItem where
  name : String
  allergens : List String
deriving DecidableEq, Repr

/-- Python-dict insertion `m[k] = v`: replace the value at an existing key
in place, else append the new binding (preserves dict insertion order). -/
def dictInsert (m : List (String × List String)) (k : String) (v : List String) :
    List (String × List String) :=
  if m.any (fun p => p.1 == k) then
    m.map (fun p => if p.1 == k then (k, v) else p)
  else
    m ++ [(k, v)]

/-- Lookup in the dict built by `dictInsert`; callers guard with a key
membership test exactly as the Python code does, so the default is never
observed. -/
def dictGet (m : List (String × List String)) (k : String) : List String :=
  match m.find? (fun p => p.1 == k) with
  | some p => p.2
  | none => []

/-- `get_menu_allergens` (`foodtruck.py:376`): build the item-name →
allergen-list dict from the menu item list. -/
def get_menu_allergens (menu : List MenuItem) : List (String × List String) :=
  menu.foldl (fun acc it => dictInsert acc it.name it.allergens) []

/-- Body of `is_order_safe_for_allergy` (`foodtruck.py:386`) after the
allergen dict has been built.  The Python `combined_allergens` set is
modelled by the concatenation of the contributing allergen lists: the set
is only ever tested for emptiness and iterated for an existential substring
check, and both are invariant under duplication and order. -/
def safeCore (ma : List (String × List String)) (items_text allergy_text : String) : Bool :=
  let a := pyStrip (pyLower allergy_text)
  if a = "" then true
  else
    let il := pyLower items_text
    let combined := ((ma.filter (fun p => subStr (pyLower p.1) il)).map (fun p => p.2)).flatten
    let combined :=
      if combined = [] ∧ ma.any (fun p => p.1 == items_text) then
        combined ++ dictGet ma items_text
      else combined
    !(combined.any (fun t => subStr t a))

/-- Variant of `safeCore` with the exact-name fallback
(`foodtruck.py:405-406`) removed. -/
def safeCoreNoFallback (ma : List (String × List String)) (items_text allergy_text : String) :
    Bool :=
  let a := pyStrip (pyLower allergy_text)
  if a = "" then true
  else
    let il := pyLower items_text
    let combined := ((ma.filter (fun p => subStr (pyLower p.1) il)).map (fun p => p.2)).flatten
    !(combined.any (fun t => subStr t a))

/-- `is_order_safe_for_allergy` (`foodtruck.py:386-412`). -/
def is_order_safe_for_allergy (menu : List MenuItem) (items_text allergy_text : String) : Bool :=
  safeCore (get_menu_allergens menu) items_text allergy_text

/-- `is_order_safe_for_allergy` with the exact-name fallback lines removed
(the comparison point of the refinement claim). -/
def is_order_safe_no_fallback (menu : List MenuItem) (items_text allergy_text : String) : Bool :=
  safeCoreNoFallback (get_menu_allergens menu) items_text allergy_text

/-- `_get_hardcoded_menu_items` (`foodtruck.py:136-351`), restricted to the
fields the allergy checker reads. -/
def hardcodedMenuItems : List MenuItem :=
  [ ⟨"Original Chicken Sandwich Combo", ["gluten", "wheat", "egg"]⟩,
    ⟨"Classic Burger Combo", ["gluten", "wheat", "egg", "dairy"]⟩,
    ⟨"BBQ Pulled Pork Combo", ["gluten", "wheat"]⟩,
    ⟨"Double Cheeseburger Combo", ["gluten", "wheat", "egg", "dairy"]⟩,
    ⟨"Wings & Wedges Box", ["gluten", "wheat"]⟩,
    ⟨"Family Bucket", ["gluten", "wheat"]⟩,
    ⟨"Fish Tacos (3pc)", ["gluten", "wheat", "fish", "dairy"]⟩,
    ⟨"Loaded Nachos", ["gluten", "wheat", "dairy"]⟩,
    ⟨"Veggie Bowl", ["soy"]⟩,
    ⟨"Smoky Tofu Wrap", ["soy", "gluten"]⟩,
    ⟨"Black Bean Burger", ["gluten", "wheat", "soy"]⟩,
    ⟨"French Fries", []⟩,
    ⟨"Onion Rings", ["gluten", "wheat", "egg"]⟩,
    ⟨"Mac & Cheese", ["gluten", "wheat", "dairy"]⟩,
    ⟨"Coleslaw", ["dairy", "egg"]⟩,
    ⟨"Loaded Fries", ["gluten", "dairy"]⟩,
    ⟨"Soft Drink (Can)", []⟩,
    ⟨"Soft Drink (Large)", []⟩,
    ⟨"Fresh Lemonade", []⟩,
    ⟨"Iced Tea", []⟩,
    ⟨"Bottled Water", []⟩,
    ⟨"Fresh Orange Juice", []⟩,
    ⟨"Milk Shake", ["dairy"]⟩ ]

/-- A `ScheduleSlot` record as stored in `data/schedules.csv`
(`foodtruck.py:643-665`). -/
structure Schedule where
  manager : String
  date : String
  time : String
  staff_email : String
  staff_name : String
  work_time : String
deriving DecidableEq, Repr

/-- A staff/user record as stored in `data/users.csv`
(`foodtruck.py:519-547`). -/
structure Staff where
  email : String
  password : String
  first : String
  last : String
  phone : String
  address : String
  dob : String
  sex : String
  role : String
  verified : String
deriving DecidableEq, Repr

/-- `book_schedule` (`foodtruck.py:669-715`): refuse if some existing
record already carries the exact (staff_email, date, time) key, else append
a new record whose text fields pass through `_sanitize_for_csv`.  The
returned pair is (success flag, new schedule collection); the CSV file and
the in-memory list receive the same record. -/
def book_schedule (schedules : List Schedule)
    (manager date time staff_email staff_name work_time : String) :
    Bool × List Schedule :=
  if schedules.any (fun s => s.staff_email == staff_email && s.date == date && s.time == time) then
    (false, schedules)
  else
    (true, schedules ++
      [⟨sanitize_for_csv manager, sanitize_for_csv date, sanitize_for_csv time,
        sanitize_for_csv staff_email, sanitize_for_csv staff_name,
        sanitize_for_csv work_time⟩])

/-- `get_user_details` (`foodtruck.py:882-894`): case-insensitive,
whitespace-tolerant lookup of a user by email. -/
def get_user_details (staff : List Staff) (email : String) : Option Staff :=
  if email = "" then none
  else staff.find? (fun u => pyLower (pyStrip u.email) == pyLower (pyStrip email))

/-- `TIME_SLOTS` (`foodtruck.py:20-30`). -/
def TIME_SLOTS : List String :=
  ["09:00", "10:00", "11:00", "12:00", "13:00", "14:00", "15:00", "16:00", "17:00"]

/-- `WORKING_DAYS` (`foodtruck.py:32`): Monday excluded. -/
def WORKING_DAYS : List String :=
  ["Tuesday", "Wednesday", "Thursday", "Friday", "Saturday", "Sunday"]

/-- Take at most `max` leading decimal digits (at least one), returning the
parsed number and the rest, as a `strptime` numeric directive does. -/
def takeDigits : Nat → Nat → List Char → Option (Nat × List Char)
  | _, acc, [] => some (acc, [])
  | 0, acc, l => some (acc, l)
  | m + 1, acc, c :: rest =>
    if c.isDigit then takeDigits m (acc * 10 + (c.toNat - 48)) rest
    else some (acc, c :: rest)

/-- Digit-run parser: one to `max` leading digits. -/
def parseNum (max : Nat) (l : List Char) : Option (Nat × List Char) :=
  match l with
  | [] => none
  | c :: _ => if c.isDigit then takeDigits max 0 l else none

/-- The `%Y` directive of CPython `strptime`: exactly four digits (its
compiled pattern is four repeated digit classes, so one- to three-digit
years are rejected). -/
def parseYear : List Char → Option (Nat × List Char)
  | c1 :: c2 :: c3 :: c4 :: rest =>
    if c1.isDigit ∧ c2.isDigit ∧ c3.isDigit ∧ c4.isDigit then
      some ((((c1.toNat - 48) * 10 + (c2.toNat - 48)) * 10 + (c3.toNat - 48)) * 10 +
        (c4.toNat - 48), rest)
    else none
  | _ => none

/-- The `%d` directive of CPython `strptime`: one or two digits, or a
single blank followed by a single nonzero digit (the space-padded day
alternative of its compiled pattern).  The numeric branch reads greedily
and leaves range rejection to the later calendar validation, which matches
the pattern-plus-constructor behaviour verbatim: two-digit reads outside
01..31 and the lone digit 0 fail either the pattern or the `date`
constructor in CPython, and fail the validation here. -/
def parseDay : List Char → Option (Nat × List Char)
  | ' ' :: c :: rest =>
    if c.isDigit ∧ c ≠ '0' then some (c.toNat - 48, rest) else none
  | l => parseNum 2 l

/-- Gregorian leap-year test, as `datetime` uses. -/
def isLeap (y : Nat) : Bool :=
  (y % 4 == 0 && y % 100 != 0) || y % 400 == 0

/-- Days in a month of the proleptic Gregorian calendar. -/
def daysInMonth (y m : Nat) : Nat :=
  if m = 2 then (if isLeap y then 29 else 28)
  else if m = 4 ∨ m = 6 ∨ m = 9 ∨ m = 11 then 30
  else 31

/-- Range validity of a (year, month, day) triple under `datetime.date`. -/
def dateValid (y m d : Nat) : Bool :=
  1 ≤ y && y ≤ 9999 && 1 ≤ m && m ≤ 12 && 1 ≤ d && d ≤ daysInMonth y m

/-- Model of `datetime.strptime(s, "%Y-%m-%d")`: exactly four year digits,
a literal dash, one or two month digits, a literal dash, a `%d` day (one
or two digits, or blank-padded single digit), end of input; the resulting
triple must be a real calendar date (`datetime.date` range validation,
which also subsumes the month/day range classes of the compiled
pattern). -/
def parseDate (s : String) : Option (Nat × Nat × Nat) :=
  match parseYear s.data with
  | none => none
  | some (y, r1) =>
    match r1 with
    | '-' :: r2 =>
      match parseNum 2 r2 with
      | none => none
      | some (m, r3) =>
        match r3 with
        | '-' :: r4 =>
          match parseDay r4 with
          | none => none
          | some (d, r5) =>
            if r5 = [] ∧ dateValid y m d then some (y, m, d) else none
        | _ => none
    | _ => none

/-- Days strictly before January 1 of year `y` in the proleptic Gregorian
calendar (`datetime.date.toordinal` minus one at New Year). -/
def daysBeforeYear (y : Nat) : Nat :=
  365 * (y - 1) + (y - 1) / 4 + (y - 1) / 400 - (y - 1) / 100

/-- Days strictly before the first of month `m` within year `y`. -/
def daysBeforeMonth (y m : Nat) : Nat :=
  [0, 31, 59, 90, 120, 151, 181, 212, 243, 273, 304, 334].getD (m - 1) 0 +
    (if isLeap y ∧ 3 ≤ m then 1 else 0)

/-- `datetime.date.toordinal`: 0001-01-01 is day 1. -/
def dateOrdinal (y m d : Nat) : Nat :=
  daysBeforeYear y + daysBeforeMonth y m + d

/-- `date.strftime("%A")`: the English weekday name; 0001-01-01 is a
Monday. -/
def dayName (y m d : Nat) : String :=
  ["Monday", "Tuesday", "Wednesday", "Thursday", "Friday", "Saturday",
    "Sunday"].getD ((dateOrdinal y m d - 1) % 7) ""

/-- `is_time_slot_available` (`foodtruck.py:903-924`): false on an invalid
or non-working date, else true iff no schedule record carries the exact
(staff_email, date, time) key. -/
def is_time_slot_available (schedules : List Schedule)
    (staff_email date_str time_slot : String) : Bool :=
  match parseDate date_str with
  | none => false
  | some (y, m, d) =>
    if !(WORKING_DAYS.contains (dayName y m d)) then false
    else
      !(schedules.any (fun s =>
        s.staff_email == staff_email && s.date == date_str && s.time == time_slot))

/-- `get_available_slots` (`foodtruck.py:926-943`): empty for an invalid or
non-working date, else the available subset of `TIME_SLOTS` in declaration
order. -/
def get_available_slots (schedules : List Schedule)
    (staff_email date_str : String) : List String :=
  match parseDate date_str with
  | none => []
  | some (y, m, d) =>
    if !(WORKING_DAYS.contains (dayName y m d)) then []
    else TIME_SLOTS.filter (fun slot => is_time_slot_available schedules staff_email date_str slot)

/-- The `', '.join(WORKING_DAYS)` fragment of the non-working-day message. -/
def workingDaysJoined : String :=
  String.intercalate ", " WORKING_DAYS

/-- The `', '.join(TIME_SLOTS)` fragment of the invalid-slot message. -/
def timeSlotsJoined : String :=
  String.intercalate ", " TIME_SLOTS

/-- `book_helper` (`foodtruck.py:945-988`): validate date, weekday, slot
membership, staff existence and availability, then append via
`book_schedule`.  Returns (success, message, new schedule collection). -/
def book_helper (staff : List Staff) (schedules : List Schedule)
    (manager date_str time_slot staff_email work_time : String) :
    Bool × String × List Schedule :=
  match parseDate date_str with
  | none => (false, "Invalid date format. Use YYYY-MM-DD", schedules)
  | some (y, m, d) =>
    if !(WORKING_DAYS.contains (dayName y m d)) then
      (false, dayName y m d ++ " is not a working day. Working days: " ++ workingDaysJoined,
        schedules)
    else if !(TIME_SLOTS.contains time_slot) then
      (false, "Invalid time slot. Available slots: " ++ timeSlotsJoined, schedules)
    else
      match get_user_details staff staff_email with
      | none => (false, "Staff member not found", schedules)
      | some u =>
        if !(is_time_slot_available schedules staff_email date_str time_slot) then
          (false, "Time slot is already booked for this staff member", schedules)
        else
          match book_schedule schedules manager date_str time_slot staff_email
              (u.first ++ " " ++ u.last) work_time with
          | (true, scheds) => (true, "Schedule booked successfully", scheds)
          | (false, scheds) => (false, "Failed to book schedule", scheds)

/-- A parsed `"%Y-%m-%d %H:%M:%S"` timestamp. -/
structure PDateTime where
  year : Nat
  month : Nat
  day : Nat
  hour : Nat
  minute : Nat
  second : Nat
deriving DecidableEq, Repr

/-- Model of `datetime.strptime(s, "%Y-%m-%d %H:%M:%S")`: the date part as
in `parseDate`, at least one whitespace character (a literal blank in a
`strptime` format matches a nonempty whitespace run), then hour, minute and
second as one or two digits each, colon-separated, with `datetime` range
validation (the range classes of the compiled `%H`/`%M`/`%S` patterns and
the `datetime` constructor together reject exactly what the validation
here rejects). -/
def parseDateTime (s : String) : Option PDateTime :=
  match parseYear s.data with
  | none => none
  | some (y, r1) =>
    match r1 with
    | '-' :: r2 =>
      match parseNum 2 r2 with
      | none => none
      | some (mo, r3) =>
        match r3 with
        | '-' :: r4 =>
          match parseDay r4 with
          | none => none
          | some (d, r5) =>
            match r5 with
            | c :: r6 =>
              if isPyWSpace c then
                match parseNum 2 (r6.dropWhile isPyWSpace) with
                | none => none
                | some (h, r7) =>
                  match r7 with
                  | ':' :: r8 =>
                    match parseNum 2 r8 with
                    | none => none
                    | some (mi, r9) =>
                      match r9 with
                      | ':' :: r10 =>
                        match parseNum 2 r10 with
                        | none => none
                        | some (sec, r11) =>
                          if r11 = [] ∧ dateValid y mo d ∧ h ≤ 23 ∧ mi ≤ 59 ∧ sec ≤ 59 then
                            some ⟨y, mo, d, h, mi, sec⟩
                          else none
                      | _ => none
                  | _ => none
              else none
            | [] => none
        | _ => none
    | _ => none

/-- Absolute second count of a timestamp (per `datetime` subtraction:
differences of these are exact `timedelta` second totals). -/
def dtSecs (t : PDateTime) : Nat :=
  dateOrdinal t.year t.month t.day * 86400 + t.hour * 3600 + t.minute * 60 + t.second

/-- Fuel-bounded binary length of a natural number (fuel 256 covers every
value reached here); written with explicit fuel so that the kernel can
evaluate it. -/
def bitLen : Nat → Nat → Nat
  | 0, _ => 0
  | fuel + 1, n => if n = 0 then 0 else bitLen fuel (n / 2) + 1

/-- Render a hundredths count as a two-decimal string, e.g. `750 ↦ "7.50"`. -/
def hundredthsStr (k : Nat) : String :=
  toString (k / 100) ++ "." ++ (if k % 100 < 10 then "0" else "") ++ toString (k % 100)

/-- The hundredths count printed by CPython for `a / 3600` (`a` a
nonnegative whole second count), computed exactly in integer arithmetic:
first `a / 3600` is rounded to the nearest 53-bit binary significand
(ties to even) — the IEEE double produced by Python's true division —
then the exact decimal value of that double is rounded to two decimals,
ties to even, which is what `format(…, '.2f')` prints.  The fixed scaling
by `2 ^ 80` keeps every intermediate exact for all second counts reachable
from parsed timestamps. -/
def nearestDoubleHundredths (a : Nat) : Nat :=
  let V := a * 2 ^ 80 / 3600
  let R := a * 2 ^ 80 % 3600
  let k := bitLen 256 V - 53
  let m0 := V / 2 ^ k
  let low := V % 2 ^ k
  let half := 2 ^ k / 2
  let m := if half < low ∨ (low = half ∧ (R ≠ 0 ∨ m0 % 2 = 1)) then m0 + 1 else m0
  let e := 80 - k
  let num := m * 100
  let j := num / 2 ^ e
  let fr := num % 2 ^ e
  let hf := 2 ^ e / 2
  if hf < fr ∨ (fr = hf ∧ j % 2 = 1) then j + 1 else j

/-- Model of `f"{seconds / 3600:.2f}"` on a whole-second `timedelta` total:
the sign is split off (CPython formats the negative double, whose magnitude
equals the double of the magnitude), and the magnitude goes through the
exact double-rounding pipeline of `nearestDoubleHundredths`. -/
def formatHours (n : Int) : String :=
  if n < 0 then "-" ++ hundredthsStr (nearestDoubleHundredths (-n).toNat)
  else hundredthsStr (nearestDoubleHundredths n.toNat)

/-- A shift record with the `data/shifts.csv` columns
(`foodtruck.py:1169-1197`); all columns are stored as text. -/
structure ShiftRow where
  shift_id : String
  staff_email : String
  date : String
  scheduled_start : String
  scheduled_end : String
  check_in_time : String
  check_out_time : String
  break_start : String
  break_end : String
  total_hours : String
  status : String
  notes : String
  early_checkout : String
deriving DecidableEq, Repr

/-- Python-truthiness field update: an absent argument (`None`) or an empty
string leaves the stored value; a nonempty string replaces it (the
`if check_in_time:` pattern of `update_shift_status`). -/
def setIf (arg : Option String) (old : String) : String :=
  match arg with
  | some s => if s = "" then old else s
  | none => old

/-- The field-writing half of the `update_shift_status` row loop
(`foodtruck.py:1277-1289`): status is written unconditionally, timestamps
under truthiness guards, notes when the argument is not `None` (sanitized),
and the early-checkout flag only ever set to `"YES"`. -/
def applyFields (row : ShiftRow) (status : String)
    (check_in_time check_out_time break_start break_end : Option String)
    (notes : Option String) (early_checkout : Bool) : ShiftRow :=
  { row with
    status := status
    check_in_time := setIf check_in_time row.check_in_time
    check_out_time := setIf check_out_time row.check_out_time
    break_start := setIf break_start row.break_start
    break_end := setIf break_end row.break_end
    notes := match notes with
      | some s => sanitize_for_csv s
      | none => row.notes
    early_checkout := if early_checkout then "YES" else row.early_checkout }

/-- The worked-hours computation of the `update_shift_status` row loop
(`foodtruck.py:1291-1311`): only when the (updated) check-in and check-out
are both nonempty and both parse; an absent or unparsable break pair
contributes zero; any `ValueError` leaves the row's `total_hours` as it
was. -/
def applyHours (row : ShiftRow) : ShiftRow :=
  if row.check_in_time ≠ "" ∧ row.check_out_time ≠ "" then
    match parseDateTime row.check_in_time, parseDateTime row.check_out_time with
    | some ci, some co =>
      let breakDur : Int :=
        if row.break_start ≠ "" ∧ row.break_end ≠ "" then
          match parseDateTime row.break_start, parseDateTime row.break_end with
          | some bs, some be => (dtSecs be : Int) - (dtSecs bs : Int)
          | _, _ => 0
        else 0
      { row with total_hours := formatHours ((dtSecs co : Int) - (dtSecs ci : Int) - breakDur) }
    | _, _ => row
  else row

/-- One matched row of the `update_shift_status` loop: field writes, then
the hours computation. -/
def transformRow (row : ShiftRow) (status : String)
    (check_in_time check_out_time break_start break_end : Option String)
    (notes : Option String) (early_checkout : Bool) : ShiftRow :=
  applyHours (applyFields row status check_in_time check_out_time break_start break_end
    notes early_checkout)

/-- `update_shift_status` (`foodtruck.py:1260-1332`): rewrite every row
whose `Shift_ID` matches; if none matches, report failure *before* the
write-back, leaving the collection (and its backing file) untouched. -/
def update_shift_status (rows : List ShiftRow) (shift_id status : String)
    (check_in_time check_out_time break_start break_end : Option String)
    (notes : Option String) (early_checkout : Bool) : Bool × List ShiftRow :=
  if rows.any (fun r => r.shift_id == shift_id) then
    (true, rows.map (fun r =>
      if r.shift_id == shift_id then
        transformRow r status check_in_time check_out_time break_start break_end
          notes early_checkout
      else r))
  else
    (false, rows)

/-- `create_shift` (`foodtruck.py:1203-1258`): append a fresh `scheduled`
row.  The source derives `shift_id` from the wall clock; it is a parameter
here. -/
def create_shift (rows : List ShiftRow)
    (shift_id staff_email date scheduled_start scheduled_end : String) : List ShiftRow :=
  rows ++ [⟨shift_id, sanitize_for_csv staff_email, sanitize_for_csv date,
    sanitize_for_csv scheduled_start, sanitize_for_csv scheduled_end,
    "", "", "", "", "0", "scheduled", "", "NO"⟩]

/-- The `/staff/time-clock/checkout` route (`app.py:1808-1853`): strip the
posted shift id, find the shift, check ownership (case-insensitive email)
and the `checked_in`/`on_break` guard, then complete the shift via
`update_shift_status`; any failed check leaves the collection untouched.
`now` stands for the formatted wall-clock time. -/
def time_clock_checkout (rows : List ShiftRow) (user_email shift_id_raw now : String) :
    Bool × List ShiftRow :=
  let sid := pyStrip shift_id_raw
  if sid = "" then (false, rows)
  else
    match rows.find? (fun s => s.shift_id == sid) with
    | none => (false, rows)
    | some shift =>
      if !(pyLower shift.staff_email == pyLower user_email) then (false, rows)
      else if !(shift.status == "checked_in" || shift.status == "on_break") then (false, rows)
      else update_shift_status rows sid "completed" none (some now) none none none false

/-- The `/staff/time-clock/checkout-early` route (`app.py:1928-1977`):
identical guards, with the early-checkout flag set on success. -/
def time_clock_checkout_early (rows : List ShiftRow) (user_email shift_id_raw now : String) :
    Bool × List ShiftRow :=
  let sid := pyStrip shift_id_raw
  if sid = "" then (false, rows)
  else
    match rows.find? (fun s => s.shift_id == sid) with
    | none => (false, rows)
    | some shift =>
      if !(pyLower shift.staff_email == pyLower user_email) then (false, rows)
      else if !(shift.status == "checked_in" || shift.status == "on_break") then (false, rows)
      else update_shift_status rows sid "completed" none (some now) none none none true

/-- A deal record as loaded from `data/deals.csv`
(`foodtruck.py:1053-1080`); the active flag is parsed to a boolean on
load. -/
structure Deal where
  deal_id : String
  title : String
  description : String
  discount : String
  created_by : String
  created_at : String
  expires_at : String
  is_active : Bool
deriving DecidableEq, Repr

/-- The per-deal keep test of `get_active_deals` (`foodtruck.py:1142-1161`):
active flag set, and the expiry — parsed first as a full timestamp, then as
a bare date, unparsable treated as non-expiring — must not lie strictly in
the past (full timestamps compared as instants, bare dates by calendar
day). -/
def dealActiveCode (now : PDateTime) (dl : Deal) : Bool :=
  dl.is_active &&
    (if dl.expires_at = "" then true
     else
       match parseDateTime dl.expires_at with
       | some v => if dtSecs v < dtSecs now then false else true
       | none =>
         match parseDate dl.expires_at with
         | some (y, m, d) =>
           if dateOrdinal y m d < dateOrdinal now.year now.month now.day then false else true
         | none => true)

/-- Newest-created-first ordering on deals: creation timestamps are
`"%Y-%m-%d %H:%M:%S"` strings, compared lexicographically exactly as the
Python `sort(key=..., reverse=True)` compares them. -/
def dealNewerEq (a b : Deal) : Prop :=
  b.created_at ≤ a.created_at

instance : DecidableRel dealNewerEq := fun a b => by
  unfold dealNewerEq; infer_instance

/-- `get_active_deals` (`foodtruck.py:1136-1165`): keep the active deals,
then stable-sort newest-created-first (a stable sort is what Python's
`list.sort` performs, and any two stable sorts under the same total
preorder agree). -/
def get_active_deals (deals : List Deal) (now : PDateTime) : List Deal :=
  List.insertionSort dealNewerEq (deals.filter (dealActiveCode now))

/-- The activity test in the words of the specification: active flag set
and expiry unset, unparsable, or *strictly in the future* relative to
evaluation time. -/
def dealActiveSpec (now : PDateTime) (dl : Deal) : Bool :=
  dl.is_active &&
    (if dl.expires_at = "" then true
     else
       match parseDateTime dl.expires_at with
       | some v => if dtSecs now < dtSecs v then true else false
       | none =>
         match parseDate dl.expires_at with
         | some (y, m, d) =>
           if dateOrdinal now.year now.month now.day < dateOrdinal y m d then true else false
         | none => true)

/-- Modelled from the spec: `get_active_deals` as §4.4 words it, with a
strictly-future expiry requirement. -/
def getActiveDealsSpec (deals : List Deal) (now : PDateTime) : List Deal :=
  List.insertionSort dealNewerEq (deals.filter (dealActiveSpec now))

/-- The activity test with the strict-future requirement relaxed to
not-in-the-past, which is what the code implements. -/
def dealActiveAmended (now : PDateTime) (dl : Deal) : Bool :=
  dl.is_active &&
    (if dl.expires_at = "" then true
     else
       match parseDateTime dl.expires_at with
       | some v => if dtSecs now ≤ dtSecs v then true else false
       | none =>
         match parseDate dl.expires_at with
         | some (y, m, d) =>
           if dateOrdinal now.year now.month now.day ≤ dateOrdinal y m d then true else false
         | none => true)

/-- The amended specification reading of `get_active_deals`. -/
def getActiveDealsAmended (deals : List Deal) (now : PDateTime) : List Deal :=
  List.insertionSort dealNewerEq (deals.filter (dealActiveAmended now))

/-- No two schedule records share the (staff_email, date, time) key. -/
def NoDupKeys (schedules : List Schedule) : Prop :=
  schedules.Pairwise (fun a b =>
    ¬(a.staff_email = b.staff_email ∧ a.date = b.date ∧ a.time = b.time))

instance (schedules : List Schedule) : Decidable (NoDupKeys schedules) := by
  unfold NoDupKeys
  exact List.instDecidablePairwise schedules

/-- Newest-first is a total relation on deals. -/
instance : IsTotal Deal dealNewerEq :=
  ⟨fun a b => (le_total b.created_at a.created_at).imp (fun h => h) (fun h => h)⟩

/-- Newest-first is a transitive relation on deals. -/
instance : IsTrans Deal dealNewerEq :=
  ⟨fun _ _ _ hab hbc => le_trans hbc hab⟩

lemma isPrefixOf_false_of_ws_head (t : List Char) (c : Char) (l : List Char)
    (ht : t ≠ []) (hws : ∀ x ∈ t, isPyWSpace x = false) (hc : isPyWSpace c = true) :
    t.isPrefixOf (c :: l) = false := by
  cases t with
  | nil => exact absurd rfl ht
  | cons t0 ts =>
    have h0 : isPyWSpace t0 = false := hws t0 (List.mem_cons_self _ _)
    have hne : (t0 == c) = false := by
      refine beq_eq_false_iff_ne.mpr (fun h => ?_)
      rw [h, hc] at h0
      exact Bool.true_eq_false.mp h0
    simp [List.isPrefixOf, hne]

lemma containsSeq_cons_ws (t : List Char) (c : Char) (l : List Char)
    (ht : t ≠ []) (hws : ∀ x ∈ t, isPyWSpace x = false) (hc : isPyWSpace c = true) :
    containsSeq t (c :: l) = containsSeq t l := by
  simp [containsSeq, isPrefixOf_false_of_ws_head t c l ht hws hc]

lemma containsSeq_dropWhile (t l : List Char)
    (ht : t ≠ []) (hws : ∀ x ∈ t, isPyWSpace x = false) :
    containsSeq t (l.dropWhile isPyWSpace) = containsSeq t l := by
  induction l with
  | nil => rfl
  | cons c r ih =>
    by_cases hc : isPyWSpace c = true
    · rw [List.dropWhile_cons, if_pos hc, ih, containsSeq_cons_ws t c r ht hws hc]
    · rw [List.dropWhile_cons, if_neg hc]

lemma isPrefixOf_eq_exists (t : List Char) : ∀ (m : List Char),
    t.isPrefixOf m = true ↔ ∃ u, m = t ++ u := by
  induction t with
  | nil =>
    intro m
    simp only [List.isPrefixOf, true_iff]
    exact ⟨m, rfl⟩
  | cons t0 ts ih =>
    intro m
    cases m with
    | nil => simp [List.isPrefixOf]
    | cons m0 ms =>
      simp only [List.isPrefixOf, Bool.and_eq_true, beq_iff_eq, ih ms, List.cons_append,
        List.cons.injEq]
      constructor
      · rintro ⟨h1, u, h2⟩
        exact ⟨u, h1.symm, h2⟩
      · rintro ⟨u, h1, h2⟩
        exact ⟨h1.symm, u, h2⟩

lemma containsSeq_eq_exists (t : List Char) : ∀ (l : List Char),
    containsSeq t l = true ↔ ∃ s u, l = s ++ t ++ u := by
  intro l
  induction l with
  | nil =>
    simp only [containsSeq, List.isEmpty_iff]
    constructor
    · rintro rfl
      exact ⟨[], [], rfl⟩
    · rintro ⟨s, u, h⟩
      rcases List.append_eq_nil.mp h.symm with ⟨h1, h2⟩
      exact (List.append_eq_nil.mp h1).2
  | cons c r ih =>
    simp only [containsSeq, Bool.or_eq_true, isPrefixOf_eq_exists, ih]
    constructor
    · rintro (⟨u, hu⟩ | ⟨s, u, hsu⟩)
      · exact ⟨[], u, by simpa using hu⟩
      · exact ⟨c :: s, u, by simp [hsu]⟩
    · rintro ⟨s, u, hsu⟩
      cases s with
      | nil => exact Or.inl ⟨u, by simpa using hsu⟩
      | cons s0 ss =>
        rcases List.cons.injEq .. ▸ hsu with ⟨_, h2⟩
        exact Or.inr ⟨ss, u, h2⟩

lemma bool_of_iff {a b : Bool} (h : a = true ↔ b = true) : a = b := by
  cases a <;> cases b <;> simp_all

lemma containsSeq_reverse (t l : List Char) :
    containsSeq t.reverse l.reverse = containsSeq t l := by
  refine bool_of_iff ?_
  rw [containsSeq_eq_exists, containsSeq_eq_exists]
  constructor
  · rintro ⟨s, u, h⟩
    refine ⟨u.reverse, s.reverse, ?_⟩
    have := congrArg List.reverse h
    simpa [List.append_assoc] using this
  · rintro ⟨s, u, h⟩
    refine ⟨u.reverse, s.reverse, ?_⟩
    simp [h, List.append_assoc]

lemma containsSeq_strip (t l : List Char)
    (ht : t ≠ []) (hws : ∀ x ∈ t, isPyWSpace x = false) :
    containsSeq t (stripChars l) = containsSeq t l := by
  have htr : t.reverse ≠ [] := by simpa using ht
  have hwsr : ∀ x ∈ t.reverse, isPyWSpace x = false := by
    intro x hx
    exact hws x (List.mem_reverse.mp hx)
  unfold stripChars
  calc containsSeq t ((l.dropWhile isPyWSpace).reverse.dropWhile isPyWSpace).reverse
      = containsSeq t.reverse.reverse
          ((l.dropWhile isPyWSpace).reverse.dropWhile isPyWSpace).reverse := by
        rw [List.reverse_reverse]
    _ = containsSeq t.reverse ((l.dropWhile isPyWSpace).reverse.dropWhile isPyWSpace) :=
        containsSeq_reverse _ _
    _ = containsSeq t.reverse (l.dropWhile isPyWSpace).reverse :=
        containsSeq_dropWhile _ _ htr hwsr
    _ = containsSeq t (l.dropWhile isPyWSpace) := containsSeq_reverse _ _
    _ = containsSeq t l := containsSeq_dropWhile _ _ ht hws

lemma strip_nil_iff (l : List Char) :
    stripChars l = [] ↔ ∀ c ∈ l, isPyWSpace c = true := by
  unfold stripChars
  rw [List.reverse_eq_nil_iff, List.dropWhile_eq_nil_iff]
  constructor
  · intro h c hc
    rcases List.mem_append.mp
        ((List.takeWhile_append_dropWhile isPyWSpace l) ▸ hc) with h1 | h2
    · exact List.mem_takeWhile_imp h1
    · exact h c (List.mem_reverse.mpr h2)
  · intro h c hc
    exact h c ((List.dropWhile_sublist isPyWSpace).mem (List.mem_reverse.mp hc))

lemma ws_lowerChar (c : Char) (h : isPyWSpace c = true) : lowerChar c = c := by
  unfold lowerChar
  rw [if_neg]
  rintro ⟨h1, _⟩
  simp only [isPyWSpace, Bool.or_eq_true, beq_iff_eq] at h
  omega

lemma string_eq_empty_iff (s : String) : s = "" ↔ s.data = [] := by
  cases s with
  | mk l =>
    constructor
    · intro h
      rw [h]
    · intro h
      have h2 : l = [] := h
      rw [h2]

lemma containsSeq_self (l : List Char) : containsSeq l l = true := by
  rw [containsSeq_eq_exists]
  exact ⟨[], [], by simp⟩

lemma dictGet_nil_of_flatten_nil (ma : List (String × List String)) (items : String)
    (hflat : ((ma.filter (fun p => subStr (pyLower p.1) (pyLower items))).map
      (fun p => p.2)).flatten = [])
    (hmem : ma.any (fun p => p.1 == items) = true) :
    dictGet ma items = [] := by
  have hfind : (ma.find? (fun p => p.1 == items)).isSome := by
    rw [List.find?_isSome]
    simpa using List.any_eq_true.mp hmem
  obtain ⟨p, hp⟩ := Option.isSome_iff_exists.mp hfind
  have hpmem : p ∈ ma := List.mem_of_find?_eq_some hp
  have hpeq : p.1 = items := by simpa using List.find?_some hp
  have hpfilter : p ∈ ma.filter (fun p => subStr (pyLower p.1) (pyLower items)) := by
    refine List.mem_filter.mpr ⟨hpmem, ?_⟩
    rw [hpeq]
    exact containsSeq_self _
  have hp2 : p.2 ∈ (ma.filter (fun p => subStr (pyLower p.1) (pyLower items))).map
      (fun p => p.2) := List.mem_map_of_mem _ hpfilter
  have hnil : p.2 = [] := (List.flatten_eq_nil_iff.mp hflat) _ hp2
  unfold dictGet
  rw [hp]
  exact hnil

lemma fallback_noop (ma : List (String × List String)) (items d : String) :
    safeCore ma items d = safeCoreNoFallback ma items d := by
  unfold safeCore safeCoreNoFallback
  by_cases ha : pyStrip (pyLower d) = ""
  · rw [if_pos ha, if_pos ha]
  · rw [if_neg ha, if_neg ha]
    by_cases hf : ((ma.filter (fun p => subStr (pyLower p.1) (pyLower items))).map
        (fun p => p.2)).flatten = [] ∧ ma.any (fun p => p.1 == items) = true
    · simp only [if_pos hf, dictGet_nil_of_flatten_nil ma items hf.1 hf.2, List.append_nil]
    · simp only [if_neg hf]

lemma goodTag_subStr_strip (t d : String)
    (hne : t ≠ "") (hws : ∀ c ∈ t.data, isPyWSpace c = false) :
    subStr t (pyStrip (pyLower d)) = subStr t (pyLower d) := by
  have htd : t.data ≠ [] := fun h => hne ((string_eq_empty_iff t).mpr h)
  exact containsSeq_strip t.data (pyLower d).data htd hws

lemma safeCore_char (ma : List (String × List String))
    (hma : ∀ p ∈ ma, ∀ t ∈ p.2, t ≠ "" ∧ ∀ c ∈ t.data, isPyWSpace c = false)
    (items d : String) :
    safeCore ma items d = false ↔
      ∃ p ∈ ma, subStr (pyLower p.1) (pyLower items) = true ∧
        ∃ t ∈ p.2, subStr t (pyLower d) = true := by
  rw [fallback_noop]
  unfold safeCoreNoFallback
  by_cases ha : pyStrip (pyLower d) = ""
  · simp only [if_pos ha]
    constructor
    · intro h
      exact absurd h (by simp)
    · rintro ⟨p, hp, _, t, htp, hts⟩
      obtain ⟨hne, hws⟩ := hma p hp t htp
      rw [← goodTag_subStr_strip t d hne hws, ha] at hts
      have htd : t.data ≠ [] := fun h => hne ((string_eq_empty_iff t).mpr h)
      have : containsSeq t.data ([] : List Char) = true := hts
      simp only [containsSeq, List.isEmpty_iff] at this
      exact absurd this htd
  · simp only [if_neg ha, Bool.not_eq_false', List.any_eq_true]
    constructor
    · rintro ⟨t, htmem, hts⟩
      obtain ⟨l', hl', htl'⟩ := List.mem_flatten.mp htmem
      obtain ⟨p, hpf, rfl⟩ := List.mem_map.mp hl'
      obtain ⟨hpma, hpred⟩ := List.mem_filter.mp hpf
      obtain ⟨hne, hws⟩ := hma p hpma t htl'
      rw [goodTag_subStr_strip t d hne hws] at hts
      exact ⟨p, hpma, hpred, t, htl', hts⟩
    · rintro ⟨p, hpma, hpred, t, htl', hts⟩
      obtain ⟨hne, hws⟩ := hma p hpma t htl'
      refine ⟨t, ?_, ?_⟩
      · exact List.mem_flatten.mpr ⟨p.2,
          List.mem_map_of_mem _ (List.mem_filter.mpr ⟨hpma, hpred⟩), htl'⟩
      · rw [goodTag_subStr_strip t d hne hws]
        exact hts

/-- C1: with the program's hardcoded catalog and a non-empty disclosure,
`is_order_safe_for_allergy` returns false exactly when some catalog item's
name occurs case-insensitively inside `items_text` and one of that item's
allergen tags occurs inside the lowercased disclosure; otherwise it returns
true. -/
theorem is_order_safe_unsafe_iff (items d : String) (hd : d ≠ "") :
    is_order_safe_for_allergy hardcodedMenuItems items d = false ↔
      ∃ it ∈ hardcodedMenuItems, subStr (pyLower it.name) (pyLower items) = true ∧
        ∃ t ∈ it.allergens, subStr t (pyLower d) = true := by
  unfold is_order_safe_for_allergy
  have hdict : get_menu_allergens hardcodedMenuItems =
      hardcodedMenuItems.map (fun it => (it.name, it.allergens)) := by decide
  rw [hdict, safeCore_char _ (by decide) items d]
  constructor
  · rintro ⟨p, hp, h1, t, ht, h2⟩
    obtain ⟨it, hit, rfl⟩ := List.mem_map.mp hp
    exact ⟨it, hit, h1, t, ht, h2⟩
  · rintro ⟨it, hit, h1, t, ht, h2⟩
    exact ⟨(it.name, it.allergens), List.mem_map_of_mem _ hit, h1, t, ht, h2⟩

/-- C1 witness: the spec's concrete scenario, derived through the
characterization theorem. -/
theorem is_order_safe_unsafe_iff_witness :
    is_order_safe_for_allergy hardcodedMenuItems "Original Chicken Sandwich Combo x2"
      "allergic to eggs" = false ∧
    is_order_safe_for_allergy hardcodedMenuItems "Original Chicken Sandwich Combo x2"
      "nut allergy" = true := by
  constructor
  · exact (is_order_safe_unsafe_iff _ _ (by decide)).mpr (by decide)
  · cases hv : is_order_safe_for_allergy hardcodedMenuItems
      "Original Chicken Sandwich Combo x2" "nut allergy" with
    | false =>
      have h := (is_order_safe_unsafe_iff "Original Chicken Sandwich Combo x2"
        "nut allergy" (by decide)).mp hv
      exact absurd h (by decide)
    | true => rfl

/-- C2: a disclosure that is empty, or whitespace-only (strips to the empty
string), makes every order safe, for every menu catalog and item text. -/
theorem is_order_safe_empty_disclosure (menu : List MenuItem) (items d : String)
    (hd : pyStrip d = "") : is_order_safe_for_allergy menu items d = true := by
  unfold is_order_safe_for_allergy safeCore
  have hd' : stripChars d.data = [] := (string_eq_empty_iff _).mp hd
  have h1 : ∀ c ∈ d.data, isPyWSpace c = true := (strip_nil_iff _).mp hd'
  have hld : pyStrip (pyLower d) = "" := by
    rw [string_eq_empty_iff]
    apply (strip_nil_iff _).mpr
    intro c hc
    obtain ⟨c0, hc0, rfl⟩ := List.mem_map.mp hc
    rw [ws_lowerChar c0 (h1 c0 hc0)]
    exact h1 c0 hc0
  simp only [if_pos hld]

/-- C2 witness: a whitespace-only disclosure at a concrete order. -/
theorem is_order_safe_empty_disclosure_witness :
    is_order_safe_for_allergy hardcodedMenuItems "Classic Burger Combo x1" "  " = true :=
  is_order_safe_empty_disclosure hardcodedMenuItems "Classic Burger Combo x1" "  " (by decide)

/-- C10: removing the exact-name fallback branch never changes the result
of `is_order_safe_for_allergy`, for every menu catalog and both inputs. -/
theorem fallback_branch_redundant (menu : List MenuItem) (items d : String) :
    is_order_safe_for_allergy menu items d = is_order_safe_no_fallback menu items d :=
  fallback_noop (get_menu_allergens menu) items d

/-- C3 counterexample: booking a key, then booking again with the same key
padded by whitespace, succeeds twice — the duplicate check compares the raw
arguments while the stored record is sanitized — leaving two records with
identical (staff_email, date, time) keys. -/
theorem book_schedule_dup_key_cex :
    (book_schedule (book_schedule [] "m" "2025-01-07" "09:00" "a@x.com" "A B" "w").2
      "m" "2025-01-07" "09:00" " a@x.com " "A B" "w").1 = true ∧
    ¬ NoDupKeys (book_schedule (book_schedule [] "m" "2025-01-07" "09:00" "a@x.com" "A B" "w").2
      "m" "2025-01-07" "09:00" " a@x.com " "A B" "w").2 := by
  decide

/-- C3 (amended): a second booking of the exact key of an existing record
fails and leaves the collection unchanged; and any booking whose key
arguments are sanitize-invariant (no surrounding whitespace or newlines)
preserves the no-duplicate-key invariant. -/
theorem book_schedule_conflict_and_invariant :
    (∀ (schedules : List Schedule) (m dt tm em nm w : String),
      (∃ s ∈ schedules, s.staff_email = em ∧ s.date = dt ∧ s.time = tm) →
      book_schedule schedules m dt tm em nm w = (false, schedules)) ∧
    (∀ (schedules : List Schedule) (m dt tm em nm w : String),
      sanitize_for_csv em = em → sanitize_for_csv dt = dt → sanitize_for_csv tm = tm →
      NoDupKeys schedules → NoDupKeys (book_schedule schedules m dt tm em nm w).2) := by
  constructor
  · rintro schedules m dt tm em nm w ⟨s, hs, h1, h2, h3⟩
    unfold book_schedule
    rw [if_pos]
    exact List.any_eq_true.mpr ⟨s, hs, by simp [h1, h2, h3]⟩
  · intro schedules m dt tm em nm w he hd ht hnd
    unfold book_schedule
    by_cases hany :
      schedules.any (fun s => s.staff_email == em && s.date == dt && s.time == tm) = true
    · rw [if_pos hany]
      exact hnd
    · rw [if_neg hany]
      unfold NoDupKeys at hnd ⊢
      rw [List.pairwise_append]
      refine ⟨hnd, List.pairwise_singleton _ _, ?_⟩
      intro a ha b hb
      simp only [List.mem_singleton] at hb
      subst hb
      rintro ⟨k1, k2, k3⟩
      apply hany
      have k1' : a.staff_email = sanitize_for_csv em := k1
      have k2' : a.date = sanitize_for_csv dt := k2
      have k3' : a.time = sanitize_for_csv tm := k3
      rw [he] at k1'
      rw [hd] at k2'
      rw [ht] at k3'
      exact List.any_eq_true.mpr ⟨a, ha, by simp [k1', k2', k3']⟩

/-- C3 witness: the conflict branch and the invariant at concrete inputs. -/
theorem book_schedule_conflict_witness :
    book_schedule [⟨"m", "2025-01-07", "09:00", "a@x.com", "A B", "w"⟩]
      "m2" "2025-01-07" "09:00" "a@x.com" "C D" "w2" =
      (false, [⟨"m", "2025-01-07", "09:00", "a@x.com", "A B", "w"⟩]) ∧
    NoDupKeys (book_schedule [] "m" "2025-01-07" "09:00" "a@x.com" "A B" "w").2 := by
  constructor
  · exact book_schedule_conflict_and_invariant.1 _ _ _ _ _ _ _
      ⟨⟨"m", "2025-01-07", "09:00", "a@x.com", "A B", "w"⟩, by decide⟩
  · exact book_schedule_conflict_and_invariant.2 [] "m" "2025-01-07" "09:00" "a@x.com"
      "A B" "w" (by decide) (by decide) (by decide) (by decide)

/-- C4: an unparsable date yields no slots and an invalid-date booking
error; a valid date on a non-working weekday yields no slots and the
non-working-day error; a valid working date yields exactly the unbooked
members of TIME_SLOTS in declaration order. -/
theorem slots_and_booking_validation :
    (∀ (schedules : List Schedule) (em ds : String), parseDate ds = none →
      get_available_slots schedules em ds = [] ∧
      ∀ (staff : List Staff) (m tm w : String),
        book_helper staff schedules m ds tm em w =
          (false, "Invalid date format. Use YYYY-MM-DD", schedules)) ∧
    (∀ (schedules : List Schedule) (em ds : String) (y mo d : Nat),
      parseDate ds = some (y, mo, d) → WORKING_DAYS.contains (dayName y mo d) = false →
      get_available_slots schedules em ds = [] ∧
      ∀ (staff : List Staff) (m tm w : String),
        book_helper staff schedules m ds tm em w =
          (false, dayName y mo d ++ " is not a working day. Working days: " ++
            workingDaysJoined, schedules)) ∧
    (∀ (schedules : List Schedule) (em ds : String) (y mo d : Nat),
      parseDate ds = some (y, mo, d) → WORKING_DAYS.contains (dayName y mo d) = true →
      get_available_slots schedules em ds = TIME_SLOTS.filter (fun slot =>
        !(schedules.any (fun s => s.staff_email == em && s.date == ds && s.time == slot)))) := by
  refine ⟨?_, ?_, ?_⟩
  · intro schedules em ds hp
    constructor
    · unfold get_available_slots
      rw [hp]
    · intro staff m tm w
      unfold book_helper
      rw [hp]
  · intro schedules em ds y mo d hp hw
    constructor
    · unfold get_available_slots
      simp only [hp]
      rw [hw]
      simp
    · intro staff m tm w
      unfold book_helper
      simp only [hp]
      rw [hw]
      simp
  · intro schedules em ds y mo d hp hw
    unfold get_available_slots
    simp only [hp]
    rw [hw]
    simp only [Bool.not_true, Bool.false_eq_true, if_false]
    refine List.filter_congr ?_
    intro slot _
    unfold is_time_slot_available
    simp only [hp]
    rw [hw]
    simp

/-- C4 witness: a Monday, a malformed date, and a working Tuesday with one
booked slot. -/
theorem slots_and_booking_validation_witness :
    get_available_slots [] "a@x.com" "2025-01-06" = [] ∧
    book_helper [] [] "m" "not-a-date" "09:00" "a@x.com" "w" =
      (false, "Invalid date format. Use YYYY-MM-DD", []) ∧
    get_available_slots [⟨"m", "2025-01-07", "09:00", "a@x.com", "A B", "w"⟩]
      "a@x.com" "2025-01-07" =
      ["10:00", "11:00", "12:00", "13:00", "14:00", "15:00", "16:00", "17:00"] := by
  refine ⟨?_, ?_, ?_⟩
  · exact (slots_and_booking_validation.2.1 [] "a@x.com" "2025-01-06" 2025 1 6
      (by decide) (by decide)).1
  · exact (slots_and_booking_validation.1 [] "a@x.com" "not-a-date" (by decide)).2
      [] "m" "09:00" "w"
  · exact (slots_and_booking_validation.2.2
      [⟨"m", "2025-01-07", "09:00", "a@x.com", "A B", "w"⟩] "a@x.com" "2025-01-07"
      2025 1 7 (by decide) (by decide)).trans (by decide)

lemma map_if_eq_self {α : Type} (f : α → α) (p : α → Bool) (l : List α)
    (h : ∀ x ∈ l, p x = false) : l.map (fun x => if p x then f x else x) = l := by
  induction l with
  | nil => rfl
  | cons a r ih =>
    have ha : p a = false := h a (List.mem_cons_self _ _)
    have hr := ih (fun x hx => h x (List.mem_cons_of_mem _ hx))
    simp [ha, hr]

lemma update_fresh_append (rows : List ShiftRow) (x : ShiftRow) (sid status : String)
    (ci co bs be nt : Option String) (ec : Bool)
    (hx : x.shift_id = sid) (hfresh : rows.any (fun r => r.shift_id == sid) = false) :
    update_shift_status (rows ++ [x]) sid status ci co bs be nt ec =
      (true, rows ++ [transformRow x status ci co bs be nt ec]) := by
  unfold update_shift_status
  have hany : (rows ++ [x]).any (fun r => r.shift_id == sid) = true := by
    rw [List.any_append]
    simp [hx]
  rw [if_pos hany, List.map_append]
  have hself : rows.map (fun r =>
      if r.shift_id == sid then transformRow r status ci co bs be nt ec else r) = rows := by
    refine map_if_eq_self _ _ rows ?_
    intro r hr
    have := List.any_eq_false.mp hfresh r hr
    simpa using this
  rw [hself]
  simp [hx]

lemma update_fresh_append_snd (rows : List ShiftRow) (x : ShiftRow) (sid status : String)
    (ci co bs be nt : Option String) (ec : Bool)
    (hx : x.shift_id = sid) (hfresh : rows.any (fun r => r.shift_id == sid) = false) :
    (update_shift_status (rows ++ [x]) sid status ci co bs be nt ec).2 =
      rows ++ [transformRow x status ci co bs be nt ec] := by
  rw [update_fresh_append rows x sid status ci co bs be nt ec hx hfresh]

lemma parseDateTime_ne_empty {t : String} {v : PDateTime}
    (h : parseDateTime t = some v) : t ≠ "" := by
  intro he
  rw [he] at h
  exact Option.noConfusion h

/-- C5: the full lifecycle create → check-in → break → back → check-out,
with parseable timestamps, ends with the shift completed and its
`total_hours` equal to (check-out − check-in) − (break-end − break-start),
rendered to two decimals. -/
theorem shift_lifecycle (rows : List ShiftRow) (sid em dt st en t1 t2 t3 t4 : String)
    (v1 v2 v3 v4 : PDateTime)
    (h1 : parseDateTime t1 = some v1) (h2 : parseDateTime t2 = some v2)
    (h3 : parseDateTime t3 = some v3) (h4 : parseDateTime t4 = some v4)
    (hfresh : rows.any (fun r => r.shift_id == sid) = false) :
    update_shift_status
      (update_shift_status
        (update_shift_status
          (update_shift_status (create_shift rows sid em dt st en)
            sid "checked_in" (some t1) none none none none false).2
          sid "on_break" none none (some t2) none none false).2
        sid "checked_in" none none none (some t3) none false).2
      sid "completed" none (some t4) none none none false =
    (true, rows ++ [⟨sid, sanitize_for_csv em, sanitize_for_csv dt, sanitize_for_csv st,
      sanitize_for_csv en, t1, t4, t2, t3,
      formatHours ((dtSecs v4 : Int) - (dtSecs v1 : Int) -
        ((dtSecs v3 : Int) - (dtSecs v2 : Int))),
      "completed", "", "NO"⟩]) := by
  have ht1 : t1 ≠ "" := parseDateTime_ne_empty h1
  have ht2 : t2 ≠ "" := parseDateTime_ne_empty h2
  have ht3 : t3 ≠ "" := parseDateTime_ne_empty h3
  have ht4 : t4 ≠ "" := parseDateTime_ne_empty h4
  have e0 : create_shift rows sid em dt st en = rows ++
      [⟨sid, sanitize_for_csv em, sanitize_for_csv dt, sanitize_for_csv st,
        sanitize_for_csv en, "", "", "", "", "0", "scheduled", "", "NO"⟩] := rfl
  have e1 : transformRow
      ⟨sid, sanitize_for_csv em, sanitize_for_csv dt, sanitize_for_csv st,
        sanitize_for_csv en, "", "", "", "", "0", "scheduled", "", "NO"⟩
      "checked_in" (some t1) none none none none false =
      ⟨sid, sanitize_for_csv em, sanitize_for_csv dt, sanitize_for_csv st,
        sanitize_for_csv en, t1, "", "", "", "0", "checked_in", "", "NO"⟩ := by
    unfold transformRow applyFields applyHours setIf
    simp [ht1]
  have e2 : transformRow
      ⟨sid, sanitize_for_csv em, sanitize_for_csv dt, sanitize_for_csv st,
        sanitize_for_csv en, t1, "", "", "", "0", "checked_in", "", "NO"⟩
      "on_break" none none (some t2) none none false =
      ⟨sid, sanitize_for_csv em, sanitize_for_csv dt, sanitize_for_csv st,
        sanitize_for_csv en, t1, "", t2, "", "0", "on_break", "", "NO"⟩ := by
    unfold transformRow applyFields applyHours setIf
    simp [ht2]
  have e3 : transformRow
      ⟨sid, sanitize_for_csv em, sanitize_for_csv dt, sanitize_for_csv st,
        sanitize_for_csv en, t1, "", t2, "", "0", "on_break", "", "NO"⟩
      "checked_in" none none none (some t3) none false =
      ⟨sid, sanitize_for_csv em, sanitize_for_csv dt, sanitize_for_csv st,
        sanitize_for_csv en, t1, "", t2, t3, "0", "checked_in", "", "NO"⟩ := by
    unfold transformRow applyFields applyHours setIf
    simp [ht3]
  have e4 : transformRow
      ⟨sid, sanitize_for_csv em, sanitize_for_csv dt, sanitize_for_csv st,
        sanitize_for_csv en, t1, "", t2, t3, "0", "checked_in", "", "NO"⟩
      "completed" none (some t4) none none none false =
      ⟨sid, sanitize_for_csv em, sanitize_for_csv dt, sanitize_for_csv st,
        sanitize_for_csv en, t1, t4, t2, t3,
        formatHours ((dtSecs v4 : Int) - (dtSecs v1 : Int) -
          ((dtSecs v3 : Int) - (dtSecs v2 : Int))),
        "completed", "", "NO"⟩ := by
    unfold transformRow applyFields applyHours setIf
    simp [ht1, ht2, ht3, ht4, h1, h2, h3, h4]
  rw [e0, update_fresh_append_snd _ _ _ _ _ _ _ _ _ _ rfl hfresh, e1,
    update_fresh_append_snd _ _ _ _ _ _ _ _ _ _ rfl hfresh, e2,
    update_fresh_append_snd _ _ _ _ _ _ _ _ _ _ rfl hfresh, e3,
    update_fresh_append _ _ _ _ _ _ _ _ _ _ rfl hfresh, e4]

/-- C5 witness: the spec's concrete scenario — check-in 09:00, break
12:00–12:30, check-out 17:00 — yields a completed shift with 7.50 hours. -/
theorem shift_lifecycle_witness :
    update_shift_status
      (update_shift_status
        (update_shift_status
          (update_shift_status (create_shift [] "SHIFT_1" "a@x.com" "2025-01-07" "09:00" "17:00")
            "SHIFT_1" "checked_in" (some "2025-01-07 09:00:00") none none none none false).2
          "SHIFT_1" "on_break" none none (some "2025-01-07 12:00:00") none none false).2
        "SHIFT_1" "checked_in" none none none (some "2025-01-07 12:30:00") none false).2
      "SHIFT_1" "completed" none (some "2025-01-07 17:00:00") none none none false =
    (true, [⟨"SHIFT_1", "a@x.com", "2025-01-07", "09:00", "17:00",
      "2025-01-07 09:00:00", "2025-01-07 17:00:00", "2025-01-07 12:00:00",
      "2025-01-07 12:30:00", "7.50", "completed", "", "NO"⟩]) := by
  have h := shift_lifecycle [] "SHIFT_1" "a@x.com" "2025-01-07" "09:00" "17:00"
    "2025-01-07 09:00:00" "2025-01-07 12:00:00" "2025-01-07 12:30:00" "2025-01-07 17:00:00"
    ⟨2025, 1, 7, 9, 0, 0⟩ ⟨2025, 1, 7, 12, 0, 0⟩ ⟨2025, 1, 7, 12, 30, 0⟩ ⟨2025, 1, 7, 17, 0, 0⟩
    (by decide) (by decide) (by decide) (by decide) rfl
  exact h.trans (by decide)

/-- C6: when the shift found for the posted id is still `scheduled`, both
the normal and the early checkout action fail and leave every shift record
unchanged. -/
theorem checkout_requires_checked_in (rows : List ShiftRow) (user sid now : String)
    (shift : ShiftRow)
    (hfind : rows.find? (fun s => s.shift_id == pyStrip sid) = some shift)
    (hst : shift.status = "scheduled") :
    time_clock_checkout rows user sid now = (false, rows) ∧
    time_clock_checkout_early rows user sid now = (false, rows) := by
  have hguard : (shift.status == "checked_in" || shift.status == "on_break") = false := by
    rw [hst]
    decide
  constructor
  · unfold time_clock_checkout
    by_cases hsid : pyStrip sid = ""
    · rw [if_pos hsid]
    · rw [if_neg hsid]
      simp only [hfind]
      cases hown : (pyLower shift.staff_email == pyLower user) <;> simp [hown, hguard]
  · unfold time_clock_checkout_early
    by_cases hsid : pyStrip sid = ""
    · rw [if_pos hsid]
    · rw [if_neg hsid]
      simp only [hfind]
      cases hown : (pyLower shift.staff_email == pyLower user) <;> simp [hown, hguard]

/-- C6 witness: a concrete scheduled shift rejects both checkout actions. -/
theorem checkout_requires_checked_in_witness :
    time_clock_checkout [⟨"SHIFT_1", "a@x.com", "2025-01-07", "09:00", "17:00",
      "", "", "", "", "0", "scheduled", "", "NO"⟩] "a@x.com" "SHIFT_1"
      "2025-01-07 17:00:00" =
      (false, [⟨"SHIFT_1", "a@x.com", "2025-01-07", "09:00", "17:00",
        "", "", "", "", "0", "scheduled", "", "NO"⟩]) ∧
    time_clock_checkout_early [⟨"SHIFT_1", "a@x.com", "2025-01-07", "09:00", "17:00",
      "", "", "", "", "0", "scheduled", "", "NO"⟩] "a@x.com" "SHIFT_1"
      "2025-01-07 17:00:00" =
      (false, [⟨"SHIFT_1", "a@x.com", "2025-01-07", "09:00", "17:00",
        "", "", "", "", "0", "scheduled", "", "NO"⟩]) :=
  checkout_requires_checked_in _ "a@x.com" "SHIFT_1" "2025-01-07 17:00:00"
    ⟨"SHIFT_1", "a@x.com", "2025-01-07", "09:00", "17:00",
      "", "", "", "", "0", "scheduled", "", "NO"⟩ (by decide) rfl

/-- C7: at a check-out transition on a shift whose (updated) check-in or
check-out timestamp is missing or unparsable, the hours computation is
skipped — `total_hours` keeps its prior value while the status is still
written — and the update itself reports success whenever the shift id
exists. -/
theorem checkout_soft_failure :
    (∀ (row : ShiftRow) (co nt : Option String) (ec : Bool),
      ((applyFields row "completed" none co none none nt ec).check_in_time = "" ∨
       (applyFields row "completed" none co none none nt ec).check_out_time = "" ∨
       parseDateTime (applyFields row "completed" none co none none nt ec).check_in_time =
         none ∨
       parseDateTime (applyFields row "completed" none co none none nt ec).check_out_time =
         none) →
      transformRow row "completed" none co none none nt ec =
        applyFields row "completed" none co none none nt ec ∧
      (applyFields row "completed" none co none none nt ec).status = "completed" ∧
      (applyFields row "completed" none co none none nt ec).total_hours = row.total_hours) ∧
    (∀ (rows : List ShiftRow) (sid : String) (co nt : Option String) (ec : Bool),
      rows.any (fun r => r.shift_id == sid) = true →
      (update_shift_status rows sid "completed" none co none none nt ec).1 = true) := by
  constructor
  · intro row co nt ec hbad
    refine ⟨?_, rfl, rfl⟩
    unfold transformRow applyHours
    rcases hbad with h | h | h | h
    · rw [if_neg]
      rintro ⟨hq, _⟩
      exact hq h
    · rw [if_neg]
      rintro ⟨_, hq⟩
      exact hq h
    · by_cases hcond : (applyFields row "completed" none co none none nt ec).check_in_time ≠ ""
        ∧ (applyFields row "completed" none co none none nt ec).check_out_time ≠ ""
      · rw [if_pos hcond]
        simp only [h]
      · rw [if_neg hcond]
    · by_cases hcond : (applyFields row "completed" none co none none nt ec).check_in_time ≠ ""
        ∧ (applyFields row "completed" none co none none nt ec).check_out_time ≠ ""
      · rw [if_pos hcond]
        cases hp1 : parseDateTime
            (applyFields row "completed" none co none none nt ec).check_in_time <;>
          simp only [h, hp1]
      · rw [if_neg hcond]
  · intro rows sid co nt ec hfound
    unfold update_shift_status
    rw [if_pos hfound]

/-- C7 witness: an unparsable stored check-in timestamp at a concrete
checkout — the status is written, the hours stay at their prior value, and
the update reports success. -/
theorem checkout_soft_failure_witness :
    transformRow ⟨"SHIFT_2", "a@x.com", "2025-01-07", "09:00", "17:00",
      "garbage", "", "", "", "0", "checked_in", "", "NO"⟩ "completed"
      none (some "2025-01-07 17:00:00") none none none false =
    applyFields ⟨"SHIFT_2", "a@x.com", "2025-01-07", "09:00", "17:00",
      "garbage", "", "", "", "0", "checked_in", "", "NO"⟩ "completed"
      none (some "2025-01-07 17:00:00") none none none false ∧
    (update_shift_status [⟨"SHIFT_2", "a@x.com", "2025-01-07", "09:00", "17:00",
      "garbage", "", "", "", "0", "checked_in", "", "NO"⟩] "SHIFT_2" "completed"
      none (some "2025-01-07 17:00:00") none none none false).1 = true := by
  constructor
  · exact (checkout_soft_failure.1 _ _ _ _ (by decide)).1
  · exact checkout_soft_failure.2 _ "SHIFT_2" _ _ _ (by decide)

/-- C9: an unknown shift id makes `update_shift_status` return false with
the collection — and hence the backing file it is written from —
completely unchanged: the not-found check precedes the write-back. -/
theorem update_shift_status_not_found (rows : List ShiftRow) (sid status : String)
    (ci co bs be nt : Option String) (ec : Bool)
    (h : rows.any (fun r => r.shift_id == sid) = false) :
    update_shift_status rows sid status ci co bs be nt ec = (false, rows) := by
  unfold update_shift_status
  rw [if_neg]
  rw [h]
  exact Bool.false_ne_true

/-- C9 witness: a concrete miss leaves the single existing record alone. -/
theorem update_shift_status_not_found_witness :
    update_shift_status [⟨"SHIFT_1", "a@x.com", "2025-01-07", "09:00", "17:00",
      "", "", "", "", "0", "scheduled", "", "NO"⟩] "SHIFT_MISSING" "completed"
      none (some "2025-01-07 17:00:00") none none none false =
      (false, [⟨"SHIFT_1", "a@x.com", "2025-01-07", "09:00", "17:00",
        "", "", "", "", "0", "scheduled", "", "NO"⟩]) :=
  update_shift_status_not_found _ "SHIFT_MISSING" "completed"
    none (some "2025-01-07 17:00:00") none none none false (by decide)

/-- C8 counterexample: a deal whose full-timestamp expiry equals the
evaluation instant is returned by the code, though its expiry is not in
the future — the strictly-future reading of the claim excludes it. -/
theorem active_deals_strict_future_cex :
    get_active_deals [⟨"D1", "t", "d", "10%", "b", "2025-01-01 00:00:00",
      "2025-01-07 12:00:00", true⟩] ⟨2025, 1, 7, 12, 0, 0⟩ =
      [⟨"D1", "t", "d", "10%", "b", "2025-01-01 00:00:00",
        "2025-01-07 12:00:00", true⟩] ∧
    getActiveDealsSpec [⟨"D1", "t", "d", "10%", "b", "2025-01-01 00:00:00",
      "2025-01-07 12:00:00", true⟩] ⟨2025, 1, 7, 12, 0, 0⟩ = [] := by
  constructor
  · decide
  · decide

/-- C8 (amended): `get_active_deals` returns exactly the deals whose active
flag is set and whose expiry is unset, unparsable, or *not in the past*
(full-timestamp expiry at or after the evaluation instant; date-only expiry
on or after the evaluation date), newest-created-first. -/
theorem get_active_deals_amended_eq (deals : List Deal) (now : PDateTime) :
    get_active_deals deals now = getActiveDealsAmended deals now ∧
    List.Sorted dealNewerEq (get_active_deals deals now) := by
  constructor
  · unfold get_active_deals getActiveDealsAmended
    congr 1
    refine List.filter_congr ?_
    intro dl _
    unfold dealActiveCode dealActiveAmended
    congr 1
    by_cases he : dl.expires_at = ""
    · rw [if_pos he, if_pos he]
    · rw [if_neg he, if_neg he]
      cases hp : parseDateTime dl.expires_at with
      | some v =>
        show (if dtSecs v < dtSecs now then false else true) =
          (if dtSecs now ≤ dtSecs v then true else false)
        by_cases hlt : dtSecs v < dtSecs now
        · rw [if_pos hlt, if_neg (by omega)]
        · rw [if_neg hlt, if_pos (by omega)]
      | none =>
        cases hq : parseDate dl.expires_at with
        | some ymd =>
          obtain ⟨y, m, d⟩ := ymd
          show (if dateOrdinal y m d < dateOrdinal now.year now.month now.day then false
              else true) =
            (if dateOrdinal now.year now.month now.day ≤ dateOrdinal y m d then true
              else false)
          by_cases hlt : dateOrdinal y m d < dateOrdinal now.year now.month now.day
          · rw [if_pos hlt, if_neg (by omega)]
          · rw [if_neg hlt, if_pos (by omega)]
        | none => rfl
  · unfold get_active_deals
    exact List.sorted_insertionSort dealNewerEq _
